import Mathlib

/-!
Shallow embedding of the ContractIQ chatbot response pipeline and the
analytics data loaders, translated from
`src/frontend/modules/chatbot.py` and `src/frontend/utils.py`.

Modelling conventions:
* A pandas DataFrame of contracts is a `List Row` (chatbot side, where the
  fixed column schema is always present in the data files shipped with the
  app), or a `DF` carrying an explicit column list (utils side, where
  column presence matters for KeyError behaviour).
* Python exceptions are modelled with `Except String`; a `try/except`
  block becomes a `match` on the `Except` value.  Points where external
  effects or data-dependent failures can occur (the OpenAI call, and the
  bodies of the three try-protected analysis helpers) are parameterised by
  a `Faults` record of oracles so that theorems can quantify over every
  failure pattern.
* Monetary columns are modelled as integers (the demo CSV stores whole
  dollars); dates are year-month-day triples, and `pd.Timestamp.now()` is
  an integer day number parameter `now` (so `(end_date - now).days` is an
  exact integer day difference).
* `str.lower` is modelled with `Char.toLower` (the keywords scanned for
  are all ASCII), and `str.strip` with `String.trim`.
-/

/-- Python `s.lower()` (ASCII-adequate for the scanned keywords; defined
on the character list so the kernel can evaluate it). -/
def lowerStr (s : String) : String := String.mk (s.data.map Char.toLower)

/-- Python `s.upper()`. -/
def upperStr (s : String) : String := String.mk (s.data.map Char.toUpper)

/-- Whitespace for Python `str.strip`. -/
def isWS (c : Char) : Bool := c == ' ' || c == '\t' || c == '\n' || c == '\r' || c == '\x0b' || c == '\x0c'

/-- Python `s.strip()`. -/
def stripStr (s : String) : String :=
  String.mk (((s.data.dropWhile isWS).reverse.dropWhile isWS).reverse)

/-- Python substring test `pat in s` (on the character list of `s`). -/
def strContainsSub (s pat : String) : Bool :=
  s.data.tails.any (fun t => pat.data.isPrefixOf t)

/-- Python `", ".join(l)`. -/
def commaJoin (l : List String) : String := String.intercalate ", " l

/-- Zero-pad a number to two digits, as `strftime` does for months. -/
def pad2 (n : Nat) : String := if n < 10 then "0" ++ toString n else toString n

/-- Zero-pad a year to four digits, as `strftime %Y` does. -/
def pad4 (n : Int) : String :=
  let a := n.natAbs
  let s := toString a
  let z := if a < 10 then "000" else if a < 100 then "00" else if a < 1000 then "0" else ""
  (if n < 0 then "-" else "") ++ z ++ s

/-- Insert a comma every three digits from the right (`a` is the digit list
reversed). -/
def groupRev : List Char → List Char
  | a :: b :: c :: d :: rest => a :: b :: c :: ',' :: groupRev (d :: rest)
  | l => l

/-- Python `f"{n:,.0f}"` for an integer value: thousands separators, no
decimals. -/
def fmtComma (n : Int) : String :=
  (if n < 0 then "-" else "") ++ String.mk (groupRev (toString n.natAbs).data.reverse).reverse

/-- Python `f"{q:.1f}"` on an exact rational: one decimal, rounding half
up (the float version rounds the nearest double half to even; no claim
depends on the tie case). -/
def fmt1 (q : ℚ) : String :=
  let n : Int := (q * 10 + 1/2).floor
  (if n < 0 then "-" else "") ++ toString (n.natAbs / 10) ++ "." ++ toString (n.natAbs % 10)

/-- Python `f"{q:,.0f}"` on a non-integer value (used for averages):
round to the nearest unit then group. -/
def fmtComma0 (q : ℚ) : String := fmtComma (q + 1/2).floor

/-- A calendar date, the parsed form `pd.to_datetime` produces from the
CSV date strings. -/
structure Ymd where
  y : Int
  m : Nat
  d : Nat
deriving DecidableEq, Repr

/-- Day number of a civil date (days since 1970-01-01, the standard
days-from-civil algorithm; faithful for the CE years appearing in the
data). -/
def daysFromCivil (dt : Ymd) : Int :=
  let y : Int := if dt.m ≤ 2 then dt.y - 1 else dt.y
  let era : Int := (if 0 ≤ y then y else y - 399) / 400
  let yoe : Int := y - era * 400
  let mp : Int := ((dt.m : Int) + 9) % 12
  let doy : Int := (153 * mp + 2) / 5 + (dt.d : Int) - 1
  let doe : Int := yoe * 365 + yoe / 4 - yoe / 100 + doy
  era * 146097 + doe - 719468

/-- The ISO rendering `YYYY-MM-DD` (the raw CSV date string; the model
assumes ISO-formatted dates, which is what the bundled data uses). -/
def ymdIso (dt : Ymd) : String := pad4 dt.y ++ "-" ++ pad2 dt.m ++ "-" ++ pad2 dt.d

/-- Python `strftime("%Y-%m")`. -/
def ymdYM (dt : Ymd) : String := pad4 dt.y ++ "-" ++ pad2 dt.m

/-- One row of the contracts table, with the columns the chatbot touches
(`type` is renamed `ctype`, `type` being a Lean keyword).  `sla_penalty`
and `escalation` are `Option String` because pandas reads blank cells as
NaN (`none`). -/
structure Row where
  contract_id : String
  counterparty : String
  total_value_usd : Int
  annual_commitment_usd : Int
  start_date : Ymd
  end_date : Ymd
  status : String
  payment_terms : String
  sla_penalty : Option String
  escalation : Option String
  ctype : String
deriving DecidableEq, Repr

/-- `df.drop_duplicates(subset=["contract_id"], keep="first")`: keep the
first row for each contract identifier (`seen` accumulates identifiers
already kept). -/
def dedupAux (seen : List String) : List Row → List Row
  | [] => []
  | r :: rs =>
      if r.contract_id ∈ seen then dedupAux seen rs
      else r :: dedupAux (r.contract_id :: seen) rs

/-- The de-duplicated table (`df_clean` in the source). -/
def dedupByContractId (rows : List Row) : List Row := dedupAux [] rows

/-- Pandas `.unique()` on a string column: distinct values in order of
first appearance (`seen` accumulates values already emitted). -/
def uniqueAux (seen : List String) : List String → List String
  | [] => []
  | s :: rest =>
      if s ∈ seen then uniqueAux seen rest
      else s :: uniqueAux (s :: seen) rest

/-- Pandas `.unique()` on a string column. -/
def uniqueStrs (l : List String) : List String := uniqueAux [] l

/-- Sum of the `total_value_usd` column. -/
def sumTV (rows : List Row) : Int := (rows.map Row.total_value_usd).sum

/-- Sum of the `annual_commitment_usd` column. -/
def sumAC (rows : List Row) : Int := (rows.map Row.annual_commitment_usd).sum

/-- `df["months_to_expiry"] = (df["end_date"] - pd.Timestamp.now()).dt.days / 30`
(float division in the source; exact rational here). -/
def monthsToExpiry (r : Row) (now : Int) : ℚ :=
  ((daysFromCivil r.end_date - now : Int) : ℚ) / 30

/-- `df_temp[df_temp["months_to_expiry"] <= m]`: the expiry bucket.  This
identical filter appears at chatbot.py lines 286/288 (comprehensive
analysis), line 470 (simple fallback) and utils.py line 198
(risk assessment). -/
def expiringWithin (rows : List Row) (now : Int) (m : ℚ) : List Row :=
  rows.filter (fun r => monthsToExpiry r now ≤ m)

/-- Lexicographic order on character lists (pandas sorts group keys
ascending with this order on the ASCII names in the data). -/
def charListLt : List Char → List Char → Bool
  | [], [] => false
  | [], _ :: _ => true
  | _ :: _, [] => false
  | a :: as, b :: bs => a < b || (a == b && charListLt as bs)

/-- Stable insertion (ascending) by an integer key. -/
def insertAscBy (key : α → Int) (x : α) : List α → List α
  | [] => [x]
  | y :: ys => if key x < key y then x :: y :: ys else y :: insertAscBy key x ys

/-- Stable insertion sort ascending by an integer key (models
`sort_values(ascending=True)`; pandas uses an unstable quicksort, so only
the order among distinct keys is guaranteed to match). -/
def sortAscBy (key : α → Int) : List α → List α
  | [] => []
  | x :: xs => insertAscBy key x (sortAscBy key xs)

/-- Stable insertion (descending) by an integer key. -/
def insertDescBy (key : α → Int) (x : α) : List α → List α
  | [] => [x]
  | y :: ys => if key y < key x then x :: y :: ys else y :: insertDescBy key x ys

/-- Stable insertion sort descending by an integer key (models
`sort_values(ascending=False)`). -/
def sortDescBy (key : α → Int) : List α → List α
  | [] => []
  | x :: xs => insertDescBy key x (sortDescBy key xs)

/-- Stable insertion (ascending) of strings. -/
def insertStrAsc (x : String) : List String → List String
  | [] => [x]
  | y :: ys => if charListLt x.data y.data then x :: y :: ys else y :: insertStrAsc x ys

/-- Sort strings ascending (the key order `groupby` produces). -/
def sortStrsAsc : List String → List String
  | [] => []
  | x :: xs => insertStrAsc x (sortStrsAsc xs)

/-- One group of `df.groupby("counterparty").agg(...)`: the vendor name
with its `total_value_usd` sum, `annual_commitment_usd` sum and
`contract_id` count. -/
structure VendorAgg where
  name : String
  tv : Int
  ac : Int
  cnt : Nat
deriving DecidableEq, Repr

/-- Rows of a given counterparty. -/
def rowsOfVendor (rows : List Row) (v : String) : List Row :=
  rows.filter (fun r => r.counterparty = v)

/-- `df.groupby("counterparty").agg({...}).sort_values("total_value_usd",
ascending=False)`: aggregate per counterparty (group keys ascending as
pandas produces them), then sort by total value descending. -/
def vendorAgg (rows : List Row) : List VendorAgg :=
  let keys := sortStrsAsc (uniqueStrs (rows.map Row.counterparty))
  let groups := keys.map (fun v =>
    let g := rowsOfVendor rows v
    VendorAgg.mk v (sumTV g) (sumAC g) g.length)
  sortDescBy VendorAgg.tv groups

/-- `series.value_counts()`: counts of each distinct value, most frequent
first (stable over first-appearance order for ties). -/
def valueCounts (l : List String) : List (String × Nat) :=
  sortDescBy (fun p => (p.2 : Int))
    ((uniqueStrs l).map (fun s => (s, (l.filter (fun t => t = s)).length)))

/-- Keyword gate for the top-vendors section (chatbot.py line 260). -/
def vendorKw (pl : String) : Bool :=
  ["vendor", "supplier", "counterparty", "top", "concentration"].any
    (fun w => strContainsSub pl w)

/-- Keyword gate for the expiry section (line 280). -/
def expiryKw (pl : String) : Bool :=
  ["expiring", "renewal", "expiry", "timeline", "6 months", "2 years"].any
    (fun w => strContainsSub pl w)

/-- Keyword gate for the payment-terms section (line 299). -/
def paymentKw (pl : String) : Bool :=
  ["payment", "terms", "unfavorable"].any (fun w => strContainsSub pl w)

/-- Keyword gate for the risk section (line 312). -/
def riskKw (pl : String) : Bool :=
  ["penalty", "sla", "escalation", "risk"].any (fun w => strContainsSub pl w)

/-- `df_clean[df_clean["status"].str.contains("Active", na=False)]`. -/
def activeRows (rows : List Row) : List Row :=
  rows.filter (fun r => strContainsSub r.status "Active")

/-- `payment_terms.isin(["Net 60", "Net 90", "Milestone-based"])`. -/
def unfavorableRows (rows : List Row) : List Row :=
  rows.filter (fun r => r.payment_terms ∈ ["Net 60", "Net 90", "Milestone-based"])

/-- `sla_penalty.notna() & (sla_penalty != "")`. -/
def hasPenalty (r : Row) : Bool :=
  match r.sla_penalty with
  | none => false
  | some s => s ≠ ""

/-- `escalation.notna() & (escalation != "None")`. -/
def hasEscalation (r : Row) : Bool :=
  match r.escalation with
  | none => false
  | some s => s ≠ "None"

/-- Minimum of an integer column (`.min()`; 0 for an empty column, where
pandas would give NaN — only reached on an empty table, which the caller
guards against). -/
def minInt (l : List Int) : Int :=
  match l with
  | [] => 0
  | x :: xs => xs.foldl min x

/-- Maximum of an integer column (`.max()`). -/
def maxInt (l : List Int) : Int :=
  match l with
  | [] => 0
  | x :: xs => xs.foldl max x

/-- Portfolio overview section, chatbot.py lines 247-257 (always
included).  `rows` is the de-duplicated table `df_clean`. -/
def overviewLines (rows : List Row) : List String :=
  ["=== PORTFOLIO OVERVIEW ===",
   "• Total Contracts: " ++ toString rows.length,
   "• Total Portfolio Value: $" ++ fmtComma (sumTV rows),
   "• Total Annual Commitments: $" ++ fmtComma (sumAC rows),
   "• Active Contracts: " ++ toString (activeRows rows).length,
   "• Average Contract Value: $" ++ fmtComma0 ((sumTV rows : ℚ) / (rows.length : ℚ))]

/-- Share of the top counterparty in total portfolio value, as a
percentage (`(vendor_analysis.iloc[0]["total_value_usd"] / total_value) * 100`,
line 273).  Exact rational in place of the float. -/
def topVendorPct (rows : List Row) : ℚ :=
  (((vendorAgg rows).headD ⟨"", 0, 0, 0⟩).tv : ℚ) / (sumTV rows : ℚ) * 100

/-- The high-concentration warning line (line 275). -/
def warnHighLine (pct : ℚ) : String :=
  "⚠️ HIGH CONCENTRATION RISK: Top vendor represents " ++ fmt1 pct ++ "% of portfolio"

/-- The moderate-concentration warning line (line 277). -/
def warnModLine (pct : ℚ) : String :=
  "⚠️ MODERATE CONCENTRATION RISK: Top vendor represents " ++ fmt1 pct ++ "% of portfolio"

/-- One ranked line of the top-5 vendor listing (line 270). -/
def rankedVendorLine (totalValue : Int) (p : Nat × VendorAgg) : String :=
  "• " ++ toString (p.1 + 1) ++ ". " ++ p.2.name ++ ": $" ++ fmtComma p.2.tv ++
  " (" ++ fmt1 ((p.2.tv : ℚ) / (totalValue : ℚ) * 100) ++ "% of portfolio) - " ++
  toString p.2.cnt ++ " contracts"

/-- Top-vendors section, lines 260-277. -/
def vendorLines (rows : List Row) : List String :=
  let totalValue := sumTV rows
  let ranked := ((vendorAgg rows).take 5).enum.map (rankedVendorLine totalValue)
  let pct := topVendorPct rows
  "\n=== TOP VENDORS ANALYSIS ===" :: ranked ++
    (if 50 < pct then [warnHighLine pct]
     else if 30 < pct then [warnModLine pct]
     else [])

/-- Contract-expiry section, lines 280-296. -/
def expiryLines (rows : List Row) (now : Int) : List String :=
  let e6 := expiringWithin rows now 6
  let e24 := expiringWithin rows now 24
  ["\n=== CONTRACT EXPIRY ANALYSIS ===",
   "• Expiring in 6 months: " ++ toString e6.length ++ " contracts ($" ++
     fmtComma (sumAC e6) ++ " at risk)",
   "• Expiring in 2 years: " ++ toString e24.length ++ " contracts ($" ++
     fmtComma (sumAC e24) ++ " at risk)"] ++
  (if e6.isEmpty then []
   else ["• Critical Renewals Needed: " ++ commaJoin (uniqueStrs (e6.map Row.counterparty)),
         "• Contract IDs Expiring: " ++ commaJoin (uniqueStrs (e6.map Row.contract_id))])

/-- Payment-terms section, lines 299-309. -/
def paymentLines (rows : List Row) : List String :=
  let unf := unfavorableRows rows
  "\n=== PAYMENT TERMS ANALYSIS ===" ::
  (valueCounts (rows.map Row.payment_terms)).map (fun p =>
    "• " ++ p.1 ++ ": " ++ toString p.2 ++ " contracts") ++
  (if unf.isEmpty then []
   else ["⚠️ UNFAVORABLE TERMS RISK: " ++ toString unf.length ++ " contracts ($" ++
           fmtComma (sumAC unf) ++ ")",
         "• Vendors with Unfavorable Terms: " ++ commaJoin (uniqueStrs (unf.map Row.counterparty))])

/-- Risk section, lines 312-323. -/
def riskLines (rows : List Row) : List String :=
  let pen := rows.filter hasPenalty
  let esc := rows.filter hasEscalation
  ["\n=== RISK ANALYSIS ===",
   "• SLA Penalty Risk: " ++ toString pen.length ++ " contracts ($" ++
     fmtComma (sumTV pen) ++ ")",
   "• Escalation Risk: " ++ toString esc.length ++ " contracts ($" ++
     fmtComma (sumAC esc) ++ ")"] ++
  (if pen.isEmpty then []
   else ["• Penalty Risk Vendors: " ++ commaJoin (uniqueStrs (pen.map Row.counterparty))]) ++
  (if esc.isEmpty then []
   else ["• Escalation Risk Vendors: " ++ commaJoin (uniqueStrs (esc.map Row.counterparty))])

/-- The fixed list of vendors scanned for by name (line 326). -/
def namedVendors : List String :=
  ["IBM", "Microsoft", "Oracle", "SAP", "Salesforce", "HCL", "Infosys", "Alpha"]

/-- Named-vendor detailed sections, lines 326-344.  `pl` is the
lower-cased question. -/
def namedVendorLines (rows : List Row) (pl : String) : List String :=
  let totalValue := sumTV rows
  namedVendors.flatMap (fun v =>
    if strContainsSub pl (lowerStr v) then
      let vc := rows.filter (fun r => strContainsSub (lowerStr r.counterparty) (lowerStr v))
      if vc.isEmpty then []
      else
        ["\n=== " ++ upperStr v ++ " CONTRACTS DETAILED ANALYSIS ===",
         "• Contract Count: " ++ toString vc.length,
         "• Total Value: $" ++ fmtComma (sumTV vc),
         "• Annual Commitment: $" ++ fmtComma (sumAC vc),
         "• Portfolio Share: " ++ fmt1 ((sumTV vc : ℚ) / (totalValue : ℚ) * 100) ++ "%",
         "• Contract Timeline:"] ++
        (sortAscBy (fun r => daysFromCivil r.start_date) vc).map (fun c =>
          "  - " ++ c.contract_id ++ ": " ++ ymdYM c.start_date ++ " to " ++
          ymdYM c.end_date ++ " ($" ++ fmtComma c.annual_commitment_usd ++ "/yr) - " ++ c.status)
    else [])

/-- Contract-types section, lines 347-352 (the `"type" in df_clean.columns`
guard is always true under the fixed schema the chatbot tables carry). -/
def typeLines (rows : List Row) : List String :=
  "\n=== CONTRACT TYPES BREAKDOWN ===" ::
  (valueCounts (rows.map Row.ctype)).map (fun p =>
    "• " ++ p.1 ++ ": " ++ toString p.2 ++ " contracts (" ++
    fmt1 ((p.2 : ℚ) / (rows.length : ℚ) * 100) ++ "%)")

/-- Financial-summary section, lines 355-359. -/
def finLines (rows : List Row) : List String :=
  ["\n=== FINANCIAL SUMMARY ===",
   "• Total Portfolio Value: $" ++ fmtComma (sumTV rows),
   "• Annual Commitments: $" ++ fmtComma (sumAC rows),
   "• Average Annual Commitment: $" ++ fmtComma0 ((sumAC rows : ℚ) / (rows.length : ℚ)),
   "• Contract Value Range: $" ++ fmtComma (minInt (rows.map Row.total_value_usd)) ++
     " - $" ++ fmtComma (maxInt (rows.map Row.total_value_usd))]

/-- The full list of analysis lines for the (already de-duplicated) table
`rows` and lower-cased question `pl`: the unconditional portfolio
overview, the four keyword-gated sections, the named-vendor sections, the
types breakdown and the financial summary, in source order. -/
def compCore (rows : List Row) (pl : String) (now : Int) : List String :=
  overviewLines rows ++
  (if vendorKw pl then vendorLines rows else []) ++
  (if expiryKw pl then expiryLines rows now else []) ++
  (if paymentKw pl then paymentLines rows else []) ++
  (if riskKw pl then riskLines rows else []) ++
  namedVendorLines rows pl ++
  typeLines rows ++
  finLines rows

/-- The analysis lines produced by `generate_comprehensive_csv_analysis`
for a raw table and question: de-duplicate on `contract_id`, lower-case
the question, build the sections. -/
def comprehensiveLines (rows : List Row) (prompt : String) (now : Int) : List String :=
  compCore (dedupByContractId rows) (lowerStr prompt) now

/-- The try-body of `generate_comprehensive_csv_analysis` (lines 240-361):
`"\n".join(analysis)`. -/
def comprehensiveBody (rows : List Row) (prompt : String) (now : Int) : String :=
  String.intercalate "\n" (comprehensiveLines rows prompt now)

/-- The constant instruction block appended by `build_combined_context`
(chatbot.py lines 379-387; triple-quoted string, leading and trailing
newline included). -/
def instrBlock : String :=
  "\nANALYSIS INSTRUCTIONS:\n- PRIORITIZE CSV DATA: Use exact numbers, dates, and contract details from the CSV analysis above\n- BE DIRECT: Answer the specific question asked, no extra analysis unless requested\n- FORMAT: Use bullet points (•) for clarity\n- BE SPECIFIC: Include exact dollar amounts, contract counts, vendor names, and dates\n- NO AUTO-RISK ASSESSMENT: Only provide risk/opportunity analysis when specifically asked\n- FINANCIAL ACCURACY: All financial figures must be precise and properly formatted\n"

/-- `build_combined_context` (lines 366-389): collect the CSV-analysis
part when truthy and non-blank, then the graph-context part when truthy
and non-blank, then always the instruction block, and join with blank
lines.  The `prompt` parameter is accepted and unused, as in the
source. -/
def build_combined_context (graph_context csv_analysis prompt : String) : String :=
  let parts : List String :=
    (if csv_analysis ≠ "" ∧ stripStr csv_analysis ≠ ""
     then ["PRIMARY DATA SOURCE - CONTRACT CSV ANALYSIS:\n" ++ csv_analysis] else []) ++
    (if graph_context ≠ "" ∧ stripStr graph_context ≠ ""
     then ["SECONDARY INSIGHTS - KNOWLEDGE GRAPH CONTEXT:\n" ++ graph_context] else []) ++
    [instrBlock]
  String.intercalate "\n\n" parts

/-- The generic capability-description message of the fallback responder
(line 499). -/
def genericCapabilityMsg (rows : List Row) : String :=
  "Based on analysis of your " ++ toString rows.length ++
  " contracts, I can provide insights about payment terms, renewals, vendor relationships, SLA requirements, and financial metrics. Please ask a more specific question."

/-- The try-body of `generate_simple_csv_response` (lines 451-499): the
hard-coded keyword-to-template rules over the de-duplicated table. -/
def simpleBody (prompt : String) (rows : List Row) (now : Int) : String :=
  let dfc := dedupByContractId rows
  let pl := lowerStr prompt
  if strContainsSub pl "total" && strContainsSub pl "value" then
    "Based on contract analysis, your total contract portfolio value is $" ++
    fmtComma (sumTV dfc) ++ " across " ++ toString dfc.length ++ " contracts."
  else if strContainsSub pl "vendor" && strContainsSub pl "top" then
    "Top vendors by contract value:\n" ++
    String.join ((((vendorAgg dfc).take 5).enum).map (fun p =>
      toString (p.1 + 1) ++ ". " ++ p.2.name ++ ": $" ++ fmtComma p.2.tv ++ "\n"))
  else if strContainsSub pl "expiring" && strContainsSub pl "6 months" then
    let e6 := expiringWithin dfc now 6
    if e6.isEmpty then "No contracts are expiring in the next 6 months."
    else
      "You have " ++ toString e6.length ++ " contracts expiring in the next 6 months: " ++
      commaJoin (uniqueStrs (e6.map Row.counterparty)) ++ ". Total value at risk: $" ++
      fmtComma (sumAC e6) ++ "."
  else if strContainsSub pl "ibm" && strContainsSub pl "timeline" then
    let ibm := dfc.filter (fun r => strContainsSub (lowerStr r.counterparty) "ibm")
    if ibm.isEmpty then "No IBM contracts found in the portfolio."
    else
      "IBM Contract Timeline:\n" ++
      String.join (ibm.map (fun c =>
        "- " ++ c.contract_id ++ ": " ++ ymdIso c.start_date ++ " to " ++
        ymdIso c.end_date ++ " ($" ++ fmtComma c.annual_commitment_usd ++ "/yr)\n"))
  else if strContainsSub pl "payment" && strContainsSub pl "terms" then
    let unf := unfavorableRows dfc
    if unf.isEmpty then "Great news! All your contracts have favorable payment terms."
    else
      "Found " ++ toString unf.length ++
      " contracts with unfavorable payment terms (Net 60, Net 90, or Milestone-based). Total annual commitment at risk: $" ++
      fmtComma (sumAC unf) ++ "."
  else if strContainsSub pl "penalty" then
    let pen := dfc.filter hasPenalty
    "You have " ++ toString pen.length ++
    " contracts with SLA penalty clauses, representing $" ++ fmtComma (sumTV pen) ++
    " in total contract value at risk."
  else genericCapabilityMsg dfc

/-- Failure oracles for the points of `generate_ai_response` where an
exception can arise or an external effect happens: an exception inside
the try-body of `generate_comprehensive_csv_analysis` (e.g. a malformed
column), an exception while building the combined context (that step has
no local handler), the outcome of the OpenAI chat-completion call inside
`generate_openai_response`, and an exception inside the try-body of
`generate_simple_csv_response`.  `none` / `.ok` means the step succeeds
and the pure embedding below describes its result. -/
structure Faults where
  csvFault : Option String
  ctxFault : Option String
  llmResult : Except String String
  simpleFault : Option String

/-- `generate_comprehensive_csv_analysis` (lines 237-364): the try-body
with its own blanket handler, so the function never raises — a failure
becomes the string `Error in CSV analysis: ...`. -/
def generate_comprehensive_csv_analysis (f : Faults) (rows : List Row)
    (prompt : String) (now : Int) : Except String String :=
  match f.csvFault with
  | some e => .ok ("Error in CSV analysis: " ++ e)
  | none => .ok (comprehensiveBody rows prompt now)

/-- The `build_combined_context` step as executed inside
`generate_ai_response`: no local handler, so a failure propagates. -/
def runBuildContext (f : Faults) (graph_context csv_analysis prompt : String) :
    Except String String :=
  match f.ctxFault with
  | some e => .error e
  | none => .ok (build_combined_context graph_context csv_analysis prompt)

/-- `generate_openai_response` (lines 391-446): the whole body is inside a
try whose handler returns the error string, so the function never raises;
on success the response text is `.strip()`-ed. -/
def generate_openai_response (f : Faults) (prompt context : String) : Except String String :=
  match f.llmResult with
  | .ok content => .ok (stripStr content)
  | .error e => .ok ("Error generating OpenAI response: " ++ e ++ ". Please try again.")

/-- `generate_simple_csv_response` (lines 448-502): try-body plus blanket
handler, so the function never raises. -/
def generate_simple_csv_response (f : Faults) (prompt : String) (rows : List Row)
    (now : Int) : Except String String :=
  match f.simpleFault with
  | some e => .ok ("Error in simple analysis: " ++ e ++ ". Please try a different question.")
  | none => .ok (simpleBody prompt rows now)

/-- The fixed message returned when the contracts table is empty
(line 213). -/
def noDataMsg : String := "No contract data available. Please check your data sources."

/-- The apologetic message built from the caught exception (lines 233 and
235; both format the outer exception `e`). -/
def errApology (e : String) : String :=
  "I encountered an error while processing your question: " ++ e ++
  ". Please try rephrasing your question or contact support."

/-- `analytics_data.get("contract_csv", pd.DataFrame())` followed by the
first attribute access on it: `none` models the bundle holding Python
`None` (as `load_cfo_analytics_data` produces when no data is loaded), on
which `df.empty` raises `AttributeError`; `some rows` is an actual
DataFrame. -/
def getContractCsv (v : Option (List Row)) : Except String (List Row) :=
  match v with
  | none => .error "'NoneType' object has no attribute 'empty'"
  | some rows => .ok rows

/-- `generate_ai_response` (lines 205-235): the guarded pipeline — empty
check, comprehensive CSV analysis, combined context, OpenAI call — with
the outer handler falling back to `generate_simple_csv_response` (itself
guarded by the inner handler returning the apology built from the outer
exception). -/
def generate_ai_response (f : Faults) (graph_context : String)
    (contract_csv : Option (List Row)) (prompt : String) (now : Int) :
    Except String String :=
  let attempt : Except String String := do
    let df ← getContractCsv contract_csv
    if df.isEmpty then pure noDataMsg
    else do
      let csvAnalysis ← generate_comprehensive_csv_analysis f df prompt now
      let combined ← runBuildContext f graph_context csvAnalysis prompt
      generate_openai_response f prompt combined
  match attempt with
  | .ok r => .ok r
  | .error e =>
      let inner : Except String String := do
        let df ← getContractCsv contract_csv
        if !df.isEmpty then generate_simple_csv_response f prompt df now
        else pure (errApology e)
      match inner with
      | .ok r => .ok r
      | .error _ => .ok (errApology e)

/-- A DataFrame as `pd.read_csv` yields it: the column names the file
actually had, plus the row data (row fields for absent columns are
meaningless defaults; every access in the code below goes through a
column-presence check first, mirroring pandas KeyError behaviour). -/
structure DF where
  cols : List String
  rows : List Row
deriving Repr

/-- The empty DataFrame `pd.DataFrame()`. -/
def emptyDF : DF := ⟨[], []⟩

/-- `df[c]` raises `KeyError` when the column is absent. -/
def requireCol (df : DF) (c : String) : Except String Unit :=
  if df.cols.contains c then .ok () else .error ("KeyError: " ++ c)

/-- A file-system state, as far as the loaders read it: for each backing
file, `none` means the file is missing, `some (.error e)` that opening or
parsing it raises, and `some (.ok v)` the parsed content.  The JSONL
insights are kept abstract as the list of parsed records. -/
structure FS where
  dummyCsv : Option (Except String DF)
  uploadedCsv : Option (Except String DF)
  insightsJsonl : Option (Except String (List String))

/-- Run a try-block whose handler returns a default. -/
def pyTry (body : Except String α) (dflt : α) : Except String α :=
  match body with
  | .ok a => .ok a
  | .error _ => .ok dflt

/-- `load_demo_contracts` (utils.py lines 58-68): read
`dummy_contracts_50.csv` when present, empty DataFrame otherwise or on
any exception. -/
def load_demo_contracts (fs : FS) : Except String DF :=
  pyTry
    (match fs.dummyCsv with
     | some r => r
     | none => .ok emptyDF)
    emptyDF

/-- `load_uploaded_contracts` (lines 70-80). -/
def load_uploaded_contracts (fs : FS) : Except String DF :=
  pyTry
    (match fs.uploadedCsv with
     | some r => r
     | none => .ok emptyDF)
    emptyDF

/-- `load_unified_contracts` (lines 82-96): prefer
`uploaded_contracts.csv`, fall back to `dummy_contracts_50.csv`, else an
empty DataFrame; any exception yields an empty DataFrame. -/
def load_unified_contracts (fs : FS) : Except String DF :=
  pyTry
    (match fs.uploadedCsv with
     | some r => r
     | none =>
         match fs.dummyCsv with
         | some r => r
         | none => .ok emptyDF)
    emptyDF

/-- `load_cfo_jsonl_insights` (lines 98-112): parse the JSONL file line
by line; a missing file or any exception (e.g. a malformed line) yields
the empty list. -/
def load_cfo_jsonl_insights (fs : FS) : Except String (List String) :=
  pyTry
    (match fs.insightsJsonl with
     | some r => r
     | none => .ok [])
    []

/-- The dict `generate_risk_assessment` returns for a non-empty table
(utils.py lines 200-205). -/
structure RiskAssessment where
  total_contracts : Nat
  active_contracts : Nat
  vendor_concentration_risk : ℚ
  expiring_soon : Nat

/-- `vendor_concentration.max()`: the largest per-counterparty
`total_value_usd` sum. -/
def maxVendorSum (rows : List Row) : Int :=
  maxInt ((uniqueStrs (rows.map Row.counterparty)).map (fun v => sumTV (rowsOfVendor rows v)))

/-- `generate_risk_assessment` (utils.py lines 181-205).  Returns the
empty dict (`none`) for an empty table; otherwise accesses the `status`,
`counterparty`, `total_value_usd` and `end_date` columns in source order
— a missing column raises, and the function has no handler.  Note there
is NO de-duplication here: every row counts. -/
def generate_risk_assessment (df : DF) (now : Int) : Except String (Option RiskAssessment) :=
  if df.rows.isEmpty then .ok none
  else do
    let _ ← requireCol df "status"
    let _ ← requireCol df "counterparty"
    let _ ← requireCol df "total_value_usd"
    let _ ← requireCol df "end_date"
    .ok (some
      { total_contracts := df.rows.length
        active_contracts := (activeRows df.rows).length
        vendor_concentration_risk := (maxVendorSum df.rows : ℚ) / (sumTV df.rows : ℚ) * 100
        expiring_soon := (expiringWithin df.rows now 6).length })

/-- The dict `generate_executive_summary` returns for a non-empty table
(utils.py lines 215-218). -/
structure ExecSummary where
  total_contract_value : Int
  annual_commitment : Int
deriving DecidableEq, Repr

/-- `generate_executive_summary` (utils.py lines 207-218): empty dict for
an empty table; otherwise sums the two monetary columns (no
de-duplication, no handler). -/
def generate_executive_summary (df : DF) (insights : List String) :
    Except String (Option ExecSummary) :=
  if df.rows.isEmpty then .ok none
  else do
    let _ ← requireCol df "total_value_usd"
    let _ ← requireCol df "annual_commitment_usd"
    .ok (some { total_contract_value := sumTV df.rows, annual_commitment := sumAC df.rows })

/-- A value of the analytics dict (heterogeneous in Python). -/
inductive AVal where
  | pynone
  | table (df : DF)
  | insightList (l : List String)
  | emptyDict
  | riskVal (r : Option RiskAssessment)
  | execVal (e : Option ExecSummary)

/-- Python dict assignment `d[k] = v`: replace in place, else append. -/
def setKey : List (String × AVal) → String → AVal → List (String × AVal)
  | [], k, v => [(k, v)]
  | (k0, v0) :: rest, k, v =>
      if k0 = k then (k, v) :: rest else (k0, v0) :: setKey rest k v

/-- The keys of the dict. -/
def keysOf (d : List (String × AVal)) : List String := d.map Prod.fst

/-- `analytics_data.update(generate_basic_insights_disabled(df))`
(utils.py lines 114-120 and 148/156/175). -/
def updateBasic (d : List (String × AVal)) : List (String × AVal) :=
  setKey (setKey (setKey d "cfo_insights" (.insightList []))
    "risk_assessment" .emptyDict) "executive_summary" .emptyDict

/-- The initial analytics dict (utils.py lines 125-130). -/
def initAnalytics : List (String × AVal) :=
  [("contract_csv", .pynone), ("cfo_insights", .insightList []),
   ("risk_assessment", .emptyDict), ("executive_summary", .emptyDict)]

/-- The shared tail of the `unified` and `live` branches: store the
table, then use JSONL insights when available (computing risk assessment
and executive summary, either of which may raise) or fall back to the
basic insights. -/
def analyticsWithDf (fs : FS) (df : DF) (now : Int) :
    Except String (List (String × AVal)) :=
  let d1 := setKey initAnalytics "contract_csv" (.table df)
  match load_cfo_jsonl_insights fs with
  | .error e => .error e
  | .ok ins =>
      if ins.isEmpty then .ok (updateBasic d1)
      else
        match generate_risk_assessment df now with
        | .error e => .error e
        | .ok r =>
            match generate_executive_summary df ins with
            | .error e => .error e
            | .ok ex =>
                .ok (setKey (setKey (setKey d1 "cfo_insights" (.insightList ins))
                  "risk_assessment" (.riskVal r)) "executive_summary" (.execVal ex))

/-- `load_cfo_analytics_data` (utils.py lines 122-179).  The function has
no exception handler of its own, so a failure inside
`generate_risk_assessment` or `generate_executive_summary`
propagates. -/
def load_cfo_analytics_data (fs : FS) (mode : String) (now : Int) :
    Except String (List (String × AVal)) :=
  if mode = "unified" then
    match load_unified_contracts fs with
    | .error e => .error e
    | .ok df =>
        if df.rows.isEmpty then .ok initAnalytics
        else analyticsWithDf fs df now
  else if mode = "demo" then
    match load_demo_contracts fs with
    | .error e => .error e
    | .ok df =>
        if df.rows.isEmpty then .ok initAnalytics
        else .ok (updateBasic (setKey initAnalytics "contract_csv" (.table df)))
  else if mode = "live" then
    match load_uploaded_contracts fs with
    | .error e => .error e
    | .ok df =>
        if df.rows.isEmpty then .ok initAnalytics
        else analyticsWithDf fs df now
  else .ok initAnalytics

/-! Concrete data used by witnesses and counterexamples. -/

/-- A sample contract row (values in the shape of the bundled demo CSV). -/
def row1 : Row :=
  ⟨"C-001", "IBM", 5000000, 1000000, ⟨2023, 1, 1⟩, ⟨2026, 1, 1⟩, "Active",
   "Net 30", some "5% monthly fee", some "3% annual", "MSA"⟩

/-- A second sample row, different vendor. -/
def row2 : Row :=
  ⟨"C-002", "Oracle Corp", 2000000, 500000, ⟨2024, 3, 1⟩, ⟨2024, 9, 1⟩, "Active",
   "Net 60", none, some "None", "SaaS"⟩

/-- A row whose `contract_id` duplicates `row1`. -/
def rowDup : Row :=
  ⟨"C-001", "Duplicate Corp", 111, 22, ⟨2020, 1, 1⟩, ⟨2021, 1, 1⟩, "Expired",
   "Net 90", none, none, "MSA"⟩

/-- Fault pattern: only the OpenAI call fails. -/
def fLLMFail : Faults := ⟨none, none, .error "boom", none⟩

/-- Fault pattern: the context-combination step raises. -/
def fCtxFail : Faults := ⟨none, some "ctxboom", .ok "fine", none⟩

/-- No faults at all. -/
def fNone : Faults := ⟨none, none, .ok "llm answer", none⟩

/-- A parsed CSV that lacks the `status` column. -/
def dfNoStatus : DF := ⟨["contract_id", "counterparty"], [row1]⟩

/-- File system: uploaded CSV parses but lacks `status`; JSONL insights
present and non-empty. -/
def fsBad : FS := ⟨none, some (.ok dfNoStatus), some (.ok ["insight-record-1"])⟩

/-- File system with no backing files at all. -/
def fsEmpty : FS := ⟨none, none, none⟩

/-- A DataFrame-of-duplicates with the full column schema, carrying
`row1` and a second row with the same `contract_id`. -/
def dfDup : DF :=
  ⟨["contract_id", "counterparty", "total_value_usd", "annual_commitment_usd",
    "start_date", "end_date", "status", "payment_terms", "sla_penalty",
    "escalation", "type"],
   [row1, rowDup]⟩

/-- None of the six keyword rules of `generate_simple_csv_response`
matches the lower-cased question `pl` (the guards of chatbot.py lines
455, 459, 466, 477, 487, 494, negated). -/
def noRuleMatches (pl : String) : Bool :=
  !(strContainsSub pl "total" && strContainsSub pl "value") &&
  !(strContainsSub pl "vendor" && strContainsSub pl "top") &&
  !(strContainsSub pl "expiring" && strContainsSub pl "6 months") &&
  !(strContainsSub pl "ibm" && strContainsSub pl "timeline") &&
  !(strContainsSub pl "payment" && strContainsSub pl "terms") &&
  !(strContainsSub pl "penalty")

/-- The line carries the high-concentration warning label. -/
def startsHighWarn (l : String) : Bool :=
  "⚠️ HIGH CONCENTRATION RISK".data.isPrefixOf l.data

/-- The line carries the moderate-concentration warning label. -/
def startsModWarn (l : String) : Bool :=
  "⚠️ MODERATE CONCENTRATION RISK".data.isPrefixOf l.data

/-- The dict holds the four analytics keys. -/
def hasFourKeys (d : List (String × AVal)) : Prop :=
  "contract_csv" ∈ keysOf d ∧ "cfo_insights" ∈ keysOf d ∧
  "risk_assessment" ∈ keysOf d ∧ "executive_summary" ∈ keysOf d

/-! Theorems. -/

/-- The intercalation of three parts by blank lines is the flat
concatenation. -/
theorem interc3 (a b c : String) :
    String.intercalate "\n\n" [a, b, c] = a ++ "\n\n" ++ b ++ "\n\n" ++ c := rfl

/-- Two parts. -/
theorem interc2 (a b : String) :
    String.intercalate "\n\n" [a, b] = a ++ "\n\n" ++ b := rfl

/-- One part. -/
theorem interc1 (a : String) : String.intercalate "\n\n" [a] = a := rfl

/-- String append is associative. -/
theorem strAppendAssoc (a b c : String) : (a ++ b) ++ c = a ++ (b ++ c) := by
  apply String.ext
  simp [String.data_append]

/-- A string whose stripped form is non-empty is non-empty. -/
theorem ne_empty_of_strip_ne (s : String) (h : stripStr s ≠ "") : s ≠ "" :=
  fun he => h (by rw [he]; rfl)

/-- Claim C2: for every question, fault pattern, graph context and
reference time, when the contracts table in the analytics bundle is the
empty DataFrame, `generate_ai_response` returns the fixed no-data message
— since this holds for every `Faults` value (in particular for every
outcome of the OpenAI call) and the result does not depend on the
keyword rules, neither the LLM call nor the fallback rules are
consulted. -/
theorem C2_empty_table_short_circuit (f : Faults) (gc prompt : String) (now : Int) :
    generate_ai_response f gc (some []) prompt now = .ok noDataMsg := rfl

/-- Claim C7: for every fault pattern (including a raising
context-combination step and a failing LLM call), every graph context,
every analytics-bundle table (even Python `None`), every question and
time, `generate_ai_response` returns a string and never propagates an
exception. -/
theorem C7_never_propagates (f : Faults) (gc : String) (v : Option (List Row))
    (prompt : String) (now : Int) :
    ∃ s, generate_ai_response f gc v prompt now = .ok s := by
  obtain ⟨cf, ctf, llm, sf⟩ := f
  cases v with
  | none => exact ⟨_, rfl⟩
  | some rows =>
      cases rows with
      | nil => exact ⟨_, rfl⟩
      | cons r rs =>
          cases cf <;> cases ctf <;> cases llm <;> cases sf <;> exact ⟨_, rfl⟩

/-- Claim C9: the comprehensive analysis and the simple fallback depend
on the question only through its lower-cased form: two questions with
the same lower-casing produce identical outputs from both. -/
theorem C9_lowercase_only (p1 p2 : String) (rows : List Row) (now : Int)
    (h : lowerStr p1 = lowerStr p2) :
    comprehensiveBody rows p1 now = comprehensiveBody rows p2 now ∧
    simpleBody p1 rows now = simpleBody p2 rows now := by
  constructor
  · unfold comprehensiveBody comprehensiveLines
    rw [h]
  · unfold simpleBody
    rw [h]

/-- Witness for C9 at a concrete pair of questions differing only in
case. -/
theorem C9_lowercase_only_witness :
    comprehensiveBody [row1] "ToP VendORS?" 0 = comprehensiveBody [row1] "top vendors?" 0 ∧
    simpleBody "ToP VendORS?" [row1] 0 = simpleBody "top vendors?" [row1] 0 :=
  C9_lowercase_only "ToP VendORS?" "top vendors?" [row1] 0 rfl

/-- The rational inequality behind the 6-month bucket. -/
theorem monthsToExpiry_le_6 (r : Row) (now : Int) :
    (monthsToExpiry r now ≤ 6) ↔ daysFromCivil r.end_date - now ≤ 180 := by
  unfold monthsToExpiry
  rw [div_le_iff₀ (by norm_num : (0:ℚ) < 30)]
  norm_num
  exact_mod_cast Iff.rfl

/-- The rational inequality behind the 2-year bucket. -/
theorem monthsToExpiry_le_24 (r : Row) (now : Int) :
    (monthsToExpiry r now ≤ 24) ↔ daysFromCivil r.end_date - now ≤ 720 := by
  unfold monthsToExpiry
  rw [div_le_iff₀ (by norm_num : (0:ℚ) < 30)]
  norm_num
  exact_mod_cast Iff.rfl

/-- Claim C6: for every row, table and fixed reference time, the row is
in the N-month bucket `expiringWithin` — the filter
`(end_date - now).days / 30 <= N` shared verbatim by the comprehensive
analysis (`expiryLines`), the simple fallback (`simpleBody`) and
`generate_risk_assessment` — iff it is in the filtered table and its end
date lies within `30 * N` days of `now`. -/
theorem C6_expiry_filter (r : Row) (rows : List Row) (now : Int) :
    (r ∈ expiringWithin rows now 6 ↔ r ∈ rows ∧ daysFromCivil r.end_date - now ≤ 180) ∧
    (r ∈ expiringWithin rows now 24 ↔ r ∈ rows ∧ daysFromCivil r.end_date - now ≤ 720) := by
  constructor
  · rw [expiringWithin, List.mem_filter, decide_eq_true_eq, monthsToExpiry_le_6]
  · rw [expiringWithin, List.mem_filter, decide_eq_true_eq, monthsToExpiry_le_24]

/-- Witness for C6 at a concrete row, table and time. -/
theorem C6_expiry_filter_witness :
    row2 ∈ expiringWithin [row1, row2] (daysFromCivil ⟨2024, 6, 1⟩) 6 :=
  (C6_expiry_filter row2 [row1, row2] (daysFromCivil ⟨2024, 6, 1⟩)).1.mpr
    ⟨by decide, by decide⟩

/-- Claim C3: a question whose lower-casing contains both "total" and
"value", answered by the fallback responder on a non-empty table, yields
exactly the template carrying the formatted de-duplicated sum of
`total_value_usd` — in particular the response contains the sum formatted
by `fmtComma` (thousands separators, no decimals). -/
theorem C3_total_value_template (prompt : String) (rows : List Row) (now : Int)
    (h1 : strContainsSub (lowerStr prompt) "total" = true)
    (h2 : strContainsSub (lowerStr prompt) "value" = true)
    (hne : rows ≠ []) :
    simpleBody prompt rows now =
      "Based on contract analysis, your total contract portfolio value is $" ++
      fmtComma (sumTV (dedupByContractId rows)) ++ " across " ++
      toString (dedupByContractId rows).length ++ " contracts." ∧
    ∃ pre post, simpleBody prompt rows now =
      pre ++ fmtComma (sumTV (dedupByContractId rows)) ++ post := by
  have hmain : simpleBody prompt rows now =
      "Based on contract analysis, your total contract portfolio value is $" ++
      fmtComma (sumTV (dedupByContractId rows)) ++ " across " ++
      toString (dedupByContractId rows).length ++ " contracts." := by
    unfold simpleBody
    simp only [h1, h2, Bool.and_self, if_true]
  refine ⟨hmain, "Based on contract analysis, your total contract portfolio value is $",
    " across " ++ toString (dedupByContractId rows).length ++ " contracts.", ?_⟩
  rw [hmain]
  apply String.ext
  simp [String.data_append]

/-- Witness for C3 at a concrete question and table. -/
theorem C3_total_value_template_witness :
    simpleBody "What is the TOTAL value?" [row1, row2] 0 =
      "Based on contract analysis, your total contract portfolio value is $" ++
      fmtComma (sumTV (dedupByContractId [row1, row2])) ++ " across " ++
      toString (dedupByContractId [row1, row2]).length ++ " contracts." ∧
    ∃ pre post, simpleBody "What is the TOTAL value?" [row1, row2] 0 =
      pre ++ fmtComma (sumTV (dedupByContractId [row1, row2])) ++ post :=
  C3_total_value_template "What is the TOTAL value?" [row1, row2] 0 rfl rfl (by decide)

/-- Claim C8: `build_combined_context` concatenates, in fixed order, the
CSV analysis part (iff non-blank after stripping), then the graph-context
part (iff non-blank after stripping), then always the constant
instruction block; the four cases below enumerate every possible output,
so no other part ever appears and the order never varies. -/
theorem C8_combined_context_order (gc csvA prompt : String) :
    (stripStr csvA ≠ "" → stripStr gc ≠ "" →
      build_combined_context gc csvA prompt =
        "PRIMARY DATA SOURCE - CONTRACT CSV ANALYSIS:\n" ++ csvA ++ "\n\n" ++
        "SECONDARY INSIGHTS - KNOWLEDGE GRAPH CONTEXT:\n" ++ gc ++ "\n\n" ++ instrBlock) ∧
    (stripStr csvA ≠ "" → stripStr gc = "" →
      build_combined_context gc csvA prompt =
        "PRIMARY DATA SOURCE - CONTRACT CSV ANALYSIS:\n" ++ csvA ++ "\n\n" ++ instrBlock) ∧
    (stripStr csvA = "" → stripStr gc ≠ "" →
      build_combined_context gc csvA prompt =
        "SECONDARY INSIGHTS - KNOWLEDGE GRAPH CONTEXT:\n" ++ gc ++ "\n\n" ++ instrBlock) ∧
    (stripStr csvA = "" → stripStr gc = "" →
      build_combined_context gc csvA prompt = instrBlock) := by
  refine ⟨fun h1 h2 => ?_, fun h1 h2 => ?_, fun h1 h2 => ?_, fun h1 h2 => ?_⟩
  · have hc1 : csvA ≠ "" ∧ stripStr csvA ≠ "" := ⟨ne_empty_of_strip_ne csvA h1, h1⟩
    have hc2 : gc ≠ "" ∧ stripStr gc ≠ "" := ⟨ne_empty_of_strip_ne gc h2, h2⟩
    simp only [build_combined_context, if_pos hc1, if_pos hc2, List.cons_append,
      List.nil_append, interc3]
    apply String.ext
    simp [String.data_append]
  · have hc1 : csvA ≠ "" ∧ stripStr csvA ≠ "" := ⟨ne_empty_of_strip_ne csvA h1, h1⟩
    have hc2 : ¬(gc ≠ "" ∧ stripStr gc ≠ "") := fun hc => hc.2 h2
    simp only [build_combined_context, if_pos hc1, if_neg hc2, List.cons_append,
      List.nil_append, interc2]
  · have hc1 : ¬(csvA ≠ "" ∧ stripStr csvA ≠ "") := fun hc => hc.2 h1
    have hc2 : gc ≠ "" ∧ stripStr gc ≠ "" := ⟨ne_empty_of_strip_ne gc h2, h2⟩
    simp only [build_combined_context, if_pos hc2, if_neg hc1, List.cons_append,
      List.nil_append, interc2]
  · have hc1 : ¬(csvA ≠ "" ∧ stripStr csvA ≠ "") := fun hc => hc.2 h1
    have hc2 : ¬(gc ≠ "" ∧ stripStr gc ≠ "") := fun hc => hc.2 h2
    simp only [build_combined_context, if_neg hc1, if_neg hc2, List.nil_append, interc1]

/-- Witness for C8 at concrete part values (both parts present). -/
theorem C8_combined_context_order_witness :
    build_combined_context "graph facts" "csv report" "q" =
      "PRIMARY DATA SOURCE - CONTRACT CSV ANALYSIS:\n" ++ "csv report" ++ "\n\n" ++
      "SECONDARY INSIGHTS - KNOWLEDGE GRAPH CONTEXT:\n" ++ "graph facts" ++ "\n\n" ++
      instrBlock :=
  (C8_combined_context_order "graph facts" "csv report" "q").1 (by decide) (by decide)

/-- Claim C1 counterexample: with a non-empty table and a failing OpenAI
call (a failure in the LLM-call step), `generate_ai_response` returns the
error string produced inside `generate_openai_response` — not the output
of the keyword-to-template rules, which for this "total value" question
would be the total-value template shown in the second conjunct. -/
theorem C1_counterexample :
    generate_ai_response fLLMFail "" (some [row1]) "what is the total value of contracts" 0 =
      .ok "Error generating OpenAI response: boom. Please try again." ∧
    generate_simple_csv_response fLLMFail "what is the total value of contracts" [row1] 0 =
      .ok "Based on contract analysis, your total contract portfolio value is $5,000,000 across 1 contracts." ∧
    ("Error generating OpenAI response: boom. Please try again." : String) ≠
      "Based on contract analysis, your total contract portfolio value is $5,000,000 across 1 contracts." :=
  ⟨rfl, rfl, by decide⟩

/-- When no keyword rule matches, the fallback responder returns the
generic capability-description message. -/
theorem simpleBody_no_match (prompt : String) (rows : List Row) (now : Int)
    (hm : noRuleMatches (lowerStr prompt) = true) :
    simpleBody prompt rows now = genericCapabilityMsg (dedupByContractId rows) := by
  unfold noRuleMatches at hm
  simp only [Bool.and_eq_true, Bool.not_eq_true'] at hm
  obtain ⟨⟨⟨⟨⟨h1, h2⟩, h3⟩, h4⟩, h5⟩, h6⟩ := hm
  unfold simpleBody
  simp [h1, h2, h3, h4, h5, h6]

/-- Claim C1 (amended): an exception raised inside the CSV-analysis step
or the LLM-call step is caught within that step and surfaces as an error
string, not via the fallback rules (see the counterexample); only a
failure that escapes to the outer handler of `generate_ai_response` —
such as one in the context-combination step — makes the returned answer
the output of `generate_simple_csv_response`, and when additionally no
keyword rule matches the question, that output is the generic
capability-description message. -/
theorem C1_amended (f : Faults) (gc prompt : String) (rows : List Row) (now : Int)
    (hctx : f.ctxFault.isSome = true) (hne : rows ≠ []) :
    generate_ai_response f gc (some rows) prompt now =
      generate_simple_csv_response f prompt rows now ∧
    (f.simpleFault = none → noRuleMatches (lowerStr prompt) = true →
      generate_ai_response f gc (some rows) prompt now =
        .ok (genericCapabilityMsg (dedupByContractId rows))) := by
  obtain ⟨cf, ctf, llm, sf⟩ := f
  cases ctf with
  | none => simp at hctx
  | some e =>
      cases rows with
      | nil => exact absurd rfl hne
      | cons a as =>
          have h1 : generate_ai_response ⟨cf, some e, llm, sf⟩ gc (some (a :: as)) prompt now =
              generate_simple_csv_response ⟨cf, some e, llm, sf⟩ prompt (a :: as) now := by
            cases cf <;> cases sf <;> rfl
          refine ⟨h1, fun hsf hm => ?_⟩
          cases sf with
          | some s => exact Option.noConfusion hsf
          | none =>
              rw [h1]
              show Except.ok (simpleBody prompt (a :: as) now) = _
              rw [simpleBody_no_match prompt (a :: as) now hm]

/-- Witness for the amended C1 at a concrete fault pattern (failing
context step), table and rule-free question. -/
theorem C1_amended_witness :
    generate_ai_response fCtxFail "" (some [row1]) "hello there" 0 =
      generate_simple_csv_response fCtxFail "hello there" [row1] 0 ∧
    generate_ai_response fCtxFail "" (some [row1]) "hello there" 0 =
      .ok (genericCapabilityMsg (dedupByContractId [row1])) :=
  ⟨(C1_amended fCtxFail "" "hello there" [row1] 0 rfl (by decide)).1,
   (C1_amended fCtxFail "" "hello there" [row1] 0 rfl (by decide)).2 rfl (by decide)⟩

/-- Claim C4 counterexample: on a table holding two rows with the same
contract identifier, `generate_risk_assessment` reports
`total_contracts = 2` and `generate_executive_summary` sums both rows
(5000111), although counting the identifier once — as if only its first
row were present — would give 1 contract and a sum of 5000000: these
aggregate computations do NOT de-duplicate. -/
theorem C4_counterexample :
    (match generate_risk_assessment dfDup 0 with
     | .ok (some r) => r.total_contracts
     | _ => 0) = 2 ∧
    (dedupByContractId [row1, rowDup]).length = 1 ∧
    generate_executive_summary dfDup [] = .ok (some ⟨5000111, 1000022⟩) ∧
    sumTV (dedupByContractId [row1, rowDup]) = 5000000 :=
  ⟨rfl, rfl, rfl, rfl⟩

/-- Appending a row whose identifier already occurs leaves the keep-first
de-duplication unchanged. -/
theorem dedupAux_append_dup (r : Row) (rows : List Row) :
    ∀ seen : List String,
      (r.contract_id ∈ seen ∨ r.contract_id ∈ rows.map Row.contract_id) →
      dedupAux seen (rows ++ [r]) = dedupAux seen rows := by
  induction rows with
  | nil =>
      intro seen h
      rcases h with h | h
      · show dedupAux seen [r] = dedupAux seen []
        simp [dedupAux, h]
      · simp at h
  | cons a as ih =>
      intro seen h
      have hsplit : r.contract_id ∈ seen ∨
          (r.contract_id = a.contract_id ∨ r.contract_id ∈ as.map Row.contract_id) := by
        rcases h with h | h
        · exact .inl h
        · simp only [List.map_cons, List.mem_cons] at h
          exact .inr h
      show dedupAux seen (a :: (as ++ [r])) = dedupAux seen (a :: as)
      unfold dedupAux
      by_cases ha : a.contract_id ∈ seen
      · rw [if_pos ha, if_pos ha]
        apply ih
        rcases hsplit with h | h | h
        · exact .inl h
        · exact .inl (h ▸ ha)
        · exact .inr h
      · rw [if_neg ha, if_neg ha]
        congr 1
        apply ih
        rcases hsplit with h | h | h
        · exact .inl (List.mem_cons_of_mem _ h)
        · exact .inl (h ▸ List.mem_cons_self _ _)
        · exact .inr h

/-- The de-duplicated table has pairwise-distinct contract identifiers,
none of them in `seen`. -/
theorem dedupAux_nodup (rows : List Row) :
    ∀ seen : List String,
      ((dedupAux seen rows).map Row.contract_id).Nodup ∧
      ∀ x ∈ (dedupAux seen rows).map Row.contract_id, x ∉ seen := by
  induction rows with
  | nil =>
      intro seen
      refine ⟨by simp [dedupAux], by simp [dedupAux]⟩
  | cons a as ih =>
      intro seen
      by_cases ha : a.contract_id ∈ seen
      · unfold dedupAux
        rw [if_pos ha]
        exact ih seen
      · unfold dedupAux
        rw [if_neg ha]
        obtain ⟨ihn, ihs⟩ := ih (a.contract_id :: seen)
        refine ⟨?_, ?_⟩
        · simp only [List.map_cons, List.nodup_cons]
          exact ⟨fun hmem => (ihs _ hmem) (List.mem_cons_self _ _), ihn⟩
        · intro x hx
          simp only [List.map_cons, List.mem_cons] at hx
          rcases hx with hx | hx
          · exact hx ▸ ha
          · exact fun hxseen => (ihs x hx) (List.mem_cons_of_mem _ hxseen)

/-- Claim C4 (amended): the chatbot aggregate computations
(`generate_comprehensive_csv_analysis` and
`generate_simple_csv_response`) count each contract identifier once —
appending a row duplicating an existing identifier leaves their outputs
unchanged, and after de-duplication the identifiers are pairwise
distinct — whereas `generate_risk_assessment` and
`generate_executive_summary` aggregate over the raw table and count every
row (see the counterexample). -/
theorem C4_amended (rows : List Row) (r : Row) (prompt : String) (now : Int)
    (h : r.contract_id ∈ rows.map Row.contract_id) :
    comprehensiveBody (rows ++ [r]) prompt now = comprehensiveBody rows prompt now ∧
    simpleBody prompt (rows ++ [r]) now = simpleBody prompt rows now ∧
    ((dedupByContractId rows).map Row.contract_id).Nodup := by
  have hd : dedupByContractId (rows ++ [r]) = dedupByContractId rows := by
    unfold dedupByContractId
    exact dedupAux_append_dup r rows [] (.inr h)
  refine ⟨?_, ?_, (dedupAux_nodup rows []).1⟩
  · unfold comprehensiveBody comprehensiveLines
    rw [hd]
  · unfold simpleBody
    rw [hd]

/-- Witness for the amended C4 at a concrete duplicated table. -/
theorem C4_amended_witness :
    comprehensiveBody ([row1] ++ [rowDup]) "top vendors" 0 =
      comprehensiveBody [row1] "top vendors" 0 ∧
    simpleBody "top vendors" ([row1] ++ [rowDup]) 0 = simpleBody "top vendors" [row1] 0 ∧
    ((dedupByContractId [row1]).map Row.contract_id).Nodup :=
  C4_amended [row1] rowDup "top vendors" 0 (by decide)

/-- Claim C10 counterexample: for the file-system state `fsBad` (uploaded
CSV parses but lacks the `status` column, JSONL insights present and
non-empty), `load_cfo_analytics_data` propagates the KeyError raised
inside `generate_risk_assessment` instead of returning a dict — so it
does not "always return a dict containing all four keys". -/
theorem C10_counterexample :
    load_cfo_analytics_data fsBad "unified" 0 = .error "KeyError: status" := rfl

/-- A try-block with a default-returning handler always succeeds. -/
theorem pyTry_ok (b : Except String α) (dflt : α) : ∃ a, pyTry b dflt = .ok a := by
  cases b with
  | ok a => exact ⟨a, rfl⟩
  | error e => exact ⟨dflt, rfl⟩

/-- Dict assignment preserves existing keys. -/
theorem mem_keysOf_setKey (d : List (String × AVal)) (k k2 : String) (v : AVal) :
    k ∈ keysOf d → k ∈ keysOf (setKey d k2 v) := by
  induction d with
  | nil => intro h; simp [keysOf] at h
  | cons p rest ih =>
      intro h
      obtain ⟨k0, v0⟩ := p
      by_cases he : k0 = k2
      · unfold setKey
        rw [if_pos he]
        simp only [keysOf, List.map_cons, List.mem_cons] at h ⊢
        rcases h with h | h
        · exact .inl (by rw [h, he])
        · exact .inr h
      · unfold setKey
        rw [if_neg he]
        simp only [keysOf, List.map_cons, List.mem_cons] at h ⊢
        rcases h with h | h
        · exact .inl h
        · exact .inr (ih h)

/-- Dict assignment preserves the four-keys property. -/
theorem hasFourKeys_setKey (d : List (String × AVal)) (k2 : String) (v : AVal)
    (h : hasFourKeys d) : hasFourKeys (setKey d k2 v) :=
  ⟨mem_keysOf_setKey d _ k2 v h.1, mem_keysOf_setKey d _ k2 v h.2.1,
   mem_keysOf_setKey d _ k2 v h.2.2.1, mem_keysOf_setKey d _ k2 v h.2.2.2⟩

/-- The initial analytics dict has the four keys. -/
theorem hasFourKeys_init : hasFourKeys initAnalytics := by
  refine ⟨?_, ?_, ?_, ?_⟩ <;> simp [keysOf, initAnalytics]

/-- `updateBasic` preserves the four-keys property. -/
theorem hasFourKeys_updateBasic (d : List (String × AVal)) (h : hasFourKeys d) :
    hasFourKeys (updateBasic d) :=
  hasFourKeys_setKey _ _ _ (hasFourKeys_setKey _ _ _ (hasFourKeys_setKey _ _ _ h))

/-- Whenever `analyticsWithDf` returns a dict, it has the four keys. -/
theorem analyticsWithDf_keys (fs : FS) (df : DF) (now : Int)
    (d : List (String × AVal)) (h : analyticsWithDf fs df now = .ok d) :
    hasFourKeys d := by
  unfold analyticsWithDf at h
  split at h
  · exact Except.noConfusion h
  · split at h
    · obtain rfl := Except.ok.inj h
      exact hasFourKeys_updateBasic _ (hasFourKeys_setKey _ _ _ hasFourKeys_init)
    · split at h
      · exact Except.noConfusion h
      · split at h
        · exact Except.noConfusion h
        · obtain rfl := Except.ok.inj h
          exact hasFourKeys_setKey _ _ _ (hasFourKeys_setKey _ _ _
            (hasFourKeys_setKey _ _ _ (hasFourKeys_setKey _ _ _ hasFourKeys_init)))

/-- Whenever `load_cfo_analytics_data` returns a dict, it has the four
keys. -/
theorem load_cfo_analytics_keys (fs : FS) (mode : String) (now : Int)
    (d : List (String × AVal)) (h : load_cfo_analytics_data fs mode now = .ok d) :
    hasFourKeys d := by
  unfold load_cfo_analytics_data at h
  split at h
  · split at h
    · exact Except.noConfusion h
    · split at h
      · obtain rfl := Except.ok.inj h
        exact hasFourKeys_init
      · exact analyticsWithDf_keys fs _ now d h
  · split at h
    · split at h
      · exact Except.noConfusion h
      · split at h
        · obtain rfl := Except.ok.inj h
          exact hasFourKeys_init
        · obtain rfl := Except.ok.inj h
          exact hasFourKeys_updateBasic _ (hasFourKeys_setKey _ _ _ hasFourKeys_init)
    · split at h
      · split at h
        · exact Except.noConfusion h
        · split at h
          · obtain rfl := Except.ok.inj h
            exact hasFourKeys_init
          · exact analyticsWithDf_keys fs _ now d h
      · obtain rfl := Except.ok.inj h
        exact hasFourKeys_init

/-- Claim C10 (amended): the four loader functions never raise — a
missing, unreadable or malformed backing file yields the empty DataFrame
(CSV loaders) or empty list (JSONL loader) — and whenever
`load_cfo_analytics_data` returns (it can instead propagate an exception
from the risk/summary computations, see the counterexample), the
returned dict contains all four keys. -/
theorem C10_amended :
    (∀ fs : FS,
       (∃ t, load_demo_contracts fs = .ok t) ∧
       (∃ t, load_uploaded_contracts fs = .ok t) ∧
       (∃ t, load_unified_contracts fs = .ok t) ∧
       (∃ l, load_cfo_jsonl_insights fs = .ok l)) ∧
    (∀ fs : FS, (fs.dummyCsv = none ∨ ∃ e, fs.dummyCsv = some (.error e)) →
       load_demo_contracts fs = .ok emptyDF) ∧
    (∀ fs : FS, (fs.uploadedCsv = none ∨ ∃ e, fs.uploadedCsv = some (.error e)) →
       load_uploaded_contracts fs = .ok emptyDF) ∧
    (∀ fs : FS, (fs.uploadedCsv = none ∨ ∃ e, fs.uploadedCsv = some (.error e)) →
       (fs.dummyCsv = none ∨ ∃ e, fs.dummyCsv = some (.error e)) →
       load_unified_contracts fs = .ok emptyDF) ∧
    (∀ fs : FS, (fs.insightsJsonl = none ∨ ∃ e, fs.insightsJsonl = some (.error e)) →
       load_cfo_jsonl_insights fs = .ok []) ∧
    (∀ (fs : FS) (mode : String) (now : Int) (d : List (String × AVal)),
       load_cfo_analytics_data fs mode now = .ok d → hasFourKeys d) := by
  refine ⟨?_, ?_, ?_, ?_, ?_, load_cfo_analytics_keys⟩
  · intro fs
    exact ⟨by unfold load_demo_contracts; exact pyTry_ok _ _,
           by unfold load_uploaded_contracts; exact pyTry_ok _ _,
           by unfold load_unified_contracts; exact pyTry_ok _ _,
           by unfold load_cfo_jsonl_insights; exact pyTry_ok _ _⟩
  · rintro fs (h | ⟨e, h⟩) <;> unfold load_demo_contracts <;> rw [h] <;> rfl
  · rintro fs (h | ⟨e, h⟩) <;> unfold load_uploaded_contracts <;> rw [h] <;> rfl
  · rintro fs (h1 | ⟨e1, h1⟩) (h2 | ⟨e2, h2⟩) <;> unfold load_unified_contracts <;>
      rw [h1] <;> try rw [h2]
    · rfl
    · rfl
    · rfl
    · rfl
  · rintro fs (h | ⟨e, h⟩) <;> unfold load_cfo_jsonl_insights <;> rw [h] <;> rfl

/-- Witness for the amended C10 at concrete file-system states. -/
theorem C10_amended_witness :
    load_demo_contracts fsEmpty = .ok emptyDF ∧ hasFourKeys initAnalytics :=
  ⟨C10_amended.2.1 fsEmpty (.inl rfl),
   C10_amended.2.2.2.2.2 fsEmpty "unified" 0 initAnalytics rfl⟩

/-- The head character survives appending. -/
theorem headChar_append (a b : String) (c : Char) (h : a.data.head? = some c) :
    (a ++ b).data.head? = some c := by
  rw [String.data_append]
  cases ha : a.data with
  | nil => rw [ha] at h; exact Option.noConfusion h
  | cons x xs =>
      rw [ha] at h
      simpa using h

/-- A line whose first character is not the warning sign does not carry
the high-concentration label. -/
theorem startsHighWarn_false_of_head (c : Char) (hc : c ≠ '⚠') (l : String)
    (h : l.data.head? = some c) : startsHighWarn l = false := by
  unfold startsHighWarn
  cases hl : l.data with
  | nil => rfl
  | cons x xs =>
      rw [hl] at h
      simp only [List.head?, Option.some.injEq] at h
      subst h
      show (('⚠' == x) && List.isPrefixOf "️ HIGH CONCENTRATION RISK".data xs) = false
      have hbe : ('⚠' == x) = false := by
        rw [beq_eq_false_iff_ne]
        exact fun he => hc he.symm
      rw [hbe, Bool.false_and]

/-- A line whose first character is not the warning sign does not carry
the moderate-concentration label. -/
theorem startsModWarn_false_of_head (c : Char) (hc : c ≠ '⚠') (l : String)
    (h : l.data.head? = some c) : startsModWarn l = false := by
  unfold startsModWarn
  cases hl : l.data with
  | nil => rfl
  | cons x xs =>
      rw [hl] at h
      simp only [List.head?, Option.some.injEq] at h
      subst h
      show (('⚠' == x) && List.isPrefixOf "️ MODERATE CONCENTRATION RISK".data xs) = false
      have hbe : ('⚠' == x) = false := by
        rw [beq_eq_false_iff_ne]
        exact fun he => hc he.symm
      rw [hbe, Bool.false_and]

/-- Neither warning label on a line not starting with the warning sign. -/
theorem noWarn_of_headChar (l : String) (c : Char) (h : l.data.head? = some c)
    (hc : c ≠ '⚠') : startsHighWarn l = false ∧ startsModWarn l = false :=
  ⟨startsHighWarn_false_of_head c hc l h, startsModWarn_false_of_head c hc l h⟩

/-- The unfavorable-terms warning line carries neither concentration
label. -/
theorem noWarn_unfavorable_line (a b : String) :
    startsHighWarn ("⚠️ UNFAVORABLE TERMS RISK: " ++ a ++ " contracts ($" ++ b ++ ")") = false ∧
    startsModWarn ("⚠️ UNFAVORABLE TERMS RISK: " ++ a ++ " contracts ($" ++ b ++ ")") = false := by
  cases a
  cases b
  exact ⟨rfl, rfl⟩

/-- The high-concentration warning line carries exactly the high label. -/
theorem warnHighLine_labels (q : ℚ) :
    startsHighWarn (warnHighLine q) = true ∧ startsModWarn (warnHighLine q) = false := by
  unfold warnHighLine
  generalize fmt1 q = s
  cases s
  exact ⟨rfl, rfl⟩

/-- The moderate-concentration warning line carries exactly the moderate
label. -/
theorem warnModLine_labels (q : ℚ) :
    startsModWarn (warnModLine q) = true ∧ startsHighWarn (warnModLine q) = false := by
  unfold warnModLine
  generalize fmt1 q = s
  cases s
  exact ⟨rfl, rfl⟩

/-- Lifting pointwise absence of the labels to `List.any`. -/
theorem any_noWarn (l : List String)
    (h : ∀ x ∈ l, startsHighWarn x = false ∧ startsModWarn x = false) :
    l.any startsHighWarn = false ∧ l.any startsModWarn = false := by
  constructor <;> rw [List.any_eq_false] <;> intro x hx <;>
    simp [(h x hx).1, (h x hx).2]

/-- No concentration label in the portfolio overview. -/
theorem noWarn_overview (rows : List Row) :
    ∀ l ∈ overviewLines rows, startsHighWarn l = false ∧ startsModWarn l = false := by
  intro l hl
  unfold overviewLines at hl
  simp only [List.mem_cons, List.not_mem_nil, or_false] at hl
  rcases hl with h | h | h | h | h | h <;> subst h <;>
    first
      | exact ⟨rfl, rfl⟩
      | exact noWarn_of_headChar _ '•' (by repeat first | exact rfl | apply headChar_append)
          (by decide)

/-- No concentration label in the expiry section. -/
theorem noWarn_expiry (rows : List Row) (now : Int) :
    ∀ l ∈ expiryLines rows now, startsHighWarn l = false ∧ startsModWarn l = false := by
  intro l hl
  unfold expiryLines at hl
  rcases List.mem_append.1 hl with h | h
  · simp only [List.mem_cons, List.not_mem_nil, or_false] at h
    rcases h with h | h | h <;> subst h <;>
      first
        | exact ⟨rfl, rfl⟩
        | exact noWarn_of_headChar _ '•' (by repeat first | exact rfl | apply headChar_append)
            (by decide)
  · split at h
    · exact absurd h (List.not_mem_nil l)
    · simp only [List.mem_cons, List.not_mem_nil, or_false] at h
      rcases h with h | h <;> subst h <;>
        exact noWarn_of_headChar _ '•' (by repeat first | exact rfl | apply headChar_append)
          (by decide)

/-- No concentration label in the payment-terms section. -/
theorem noWarn_payment (rows : List Row) :
    ∀ l ∈ paymentLines rows, startsHighWarn l = false ∧ startsModWarn l = false := by
  intro l hl
  unfold paymentLines at hl
  cases hl with
  | head => exact ⟨rfl, rfl⟩
  | tail b hl =>
      rcases List.mem_append.1 hl with h | h
      · obtain ⟨p, hp, h⟩ := List.mem_map.1 h
        subst h
        exact noWarn_of_headChar _ '•' (by repeat first | exact rfl | apply headChar_append)
          (by decide)
      · split at h
        · exact absurd h (List.not_mem_nil l)
        · simp only [List.mem_cons, List.not_mem_nil, or_false] at h
          rcases h with h | h <;> subst h
          · exact noWarn_unfavorable_line _ _
          · exact noWarn_of_headChar _ '•' (by repeat first | exact rfl | apply headChar_append)
              (by decide)

/-- No concentration label in the risk section. -/
theorem noWarn_risk (rows : List Row) :
    ∀ l ∈ riskLines rows, startsHighWarn l = false ∧ startsModWarn l = false := by
  intro l hl
  unfold riskLines at hl
  rcases List.mem_append.1 hl with hl | h
  · rcases List.mem_append.1 hl with h | h
    · simp only [List.mem_cons, List.not_mem_nil, or_false] at h
      rcases h with h | h | h <;> subst h <;>
        first
          | exact ⟨rfl, rfl⟩
          | exact noWarn_of_headChar _ '•' (by repeat first | exact rfl | apply headChar_append)
              (by decide)
    · split at h
      · exact absurd h (List.not_mem_nil l)
      · simp only [List.mem_cons, List.not_mem_nil, or_false] at h
        subst h
        exact noWarn_of_headChar _ '•' (by repeat first | exact rfl | apply headChar_append)
          (by decide)
  · split at h
    · exact absurd h (List.not_mem_nil l)
    · simp only [List.mem_cons, List.not_mem_nil, or_false] at h
      subst h
      exact noWarn_of_headChar _ '•' (by repeat first | exact rfl | apply headChar_append)
        (by decide)

/-- No concentration label in the named-vendor sections. -/
theorem noWarn_named (rows : List Row) (pl : String) :
    ∀ l ∈ namedVendorLines rows pl, startsHighWarn l = false ∧ startsModWarn l = false := by
  intro l hl
  unfold namedVendorLines at hl
  rw [List.mem_flatMap] at hl
  obtain ⟨v, hv, hl⟩ := hl
  split at hl
  · simp only [] at hl
    split at hl
    · exact absurd hl (List.not_mem_nil l)
    · rcases List.mem_append.1 hl with h | h
      · simp only [List.mem_cons, List.not_mem_nil, or_false] at h
        rcases h with h | h | h | h | h | h <;> subst h <;>
          first
            | exact ⟨rfl, rfl⟩
            | exact noWarn_of_headChar _ '\n'
                (by repeat first | exact rfl | apply headChar_append) (by decide)
            | exact noWarn_of_headChar _ '•'
                (by repeat first | exact rfl | apply headChar_append) (by decide)
      · obtain ⟨c, hc, h⟩ := List.mem_map.1 h
        subst h
        exact noWarn_of_headChar _ ' ' (by repeat first | exact rfl | apply headChar_append)
          (by decide)
  · exact absurd hl (List.not_mem_nil l)

/-- No concentration label in the types breakdown. -/
theorem noWarn_types (rows : List Row) :
    ∀ l ∈ typeLines rows, startsHighWarn l = false ∧ startsModWarn l = false := by
  intro l hl
  unfold typeLines at hl
  rw [List.mem_cons] at hl
  rcases hl with h | hl
  · subst h
    exact ⟨rfl, rfl⟩
  · obtain ⟨p, hp, h⟩ := List.mem_map.1 hl
    subst h
    exact noWarn_of_headChar _ '•' (by repeat first | exact rfl | apply headChar_append)
      (by decide)

/-- No concentration label in the financial summary. -/
theorem noWarn_fin (rows : List Row) :
    ∀ l ∈ finLines rows, startsHighWarn l = false ∧ startsModWarn l = false := by
  intro l hl
  unfold finLines at hl
  simp only [List.mem_cons, List.not_mem_nil, or_false] at hl
  rcases hl with h | h | h | h | h <;> subst h <;>
    first
      | exact ⟨rfl, rfl⟩
      | exact noWarn_of_headChar _ '•' (by repeat first | exact rfl | apply headChar_append)
          (by decide)

/-- The top-vendors section carries the high-concentration label exactly
when the top share exceeds 50 percent. -/
theorem vendorLines_any_high (rows : List Row) :
    (vendorLines rows).any startsHighWarn = decide (50 < topVendorPct rows) := by
  unfold vendorLines
  simp only [List.any_cons, List.any_append]
  have h1 : (((vendorAgg rows).take 5).enum.map (rankedVendorLine (sumTV rows))).any
      startsHighWarn = false := by
    rw [List.any_eq_false]
    intro x hx
    obtain ⟨p, hp, h⟩ := List.mem_map.1 hx
    subst h
    simp [(noWarn_of_headChar (rankedVendorLine (sumTV rows) p) '•'
      (by unfold rankedVendorLine; repeat first | exact rfl | apply headChar_append)
      (by decide)).1]
  rw [h1]
  have h0 : startsHighWarn "\n=== TOP VENDORS ANALYSIS ===" = false := rfl
  rw [h0]
  simp only [Bool.false_or]
  split
  · rename_i hp
    simp [List.any_cons, (warnHighLine_labels _).1, hp]
  · split
    · rename_i hp hp2
      simp [List.any_cons, (warnModLine_labels _).2, hp]
    · rename_i hp hp2
      simp [hp]

/-- The top-vendors section carries the moderate label exactly when the
top share is above 30 and at most 50 percent. -/
theorem vendorLines_any_mod (rows : List Row) :
    (vendorLines rows).any startsModWarn =
      decide (30 < topVendorPct rows ∧ topVendorPct rows ≤ 50) := by
  unfold vendorLines
  simp only [List.any_cons, List.any_append]
  have h1 : (((vendorAgg rows).take 5).enum.map (rankedVendorLine (sumTV rows))).any
      startsModWarn = false := by
    rw [List.any_eq_false]
    intro x hx
    obtain ⟨p, hp, h⟩ := List.mem_map.1 hx
    subst h
    simp [(noWarn_of_headChar (rankedVendorLine (sumTV rows) p) '•'
      (by unfold rankedVendorLine; repeat first | exact rfl | apply headChar_append)
      (by decide)).2]
  rw [h1]
  have h0 : startsModWarn "\n=== TOP VENDORS ANALYSIS ===" = false := rfl
  rw [h0]
  simp only [Bool.false_or]
  split
  · rename_i hp
    have hnot : ¬(30 < topVendorPct rows ∧ topVendorPct rows ≤ 50) :=
      fun hc => absurd hp (not_lt.mpr hc.2)
    simp [List.any_cons, (warnHighLine_labels _).2, hnot]
  · split
    · rename_i hp hp2
      have hyes : 30 < topVendorPct rows ∧ topVendorPct rows ≤ 50 := ⟨hp2, not_lt.1 hp⟩
      simp [List.any_cons, (warnModLine_labels _).1, hyes]
    · rename_i hp hp2
      have hnot : ¬(30 < topVendorPct rows ∧ topVendorPct rows ≤ 50) :=
        fun hc => absurd hc.1 hp2
      simp [hnot]

/-- Claim C5: on a non-empty table, when the vendor-analysis section runs
(vendor keyword present), the produced analysis lines carry the
high-concentration warning label and not the moderate one when the top
counterparty share strictly exceeds 50 percent; the moderate and not the
high one when the share is above 30 and at most 50 percent; and neither
when the share is below 30 percent. -/
theorem C5_concentration (rows : List Row) (prompt : String) (now : Int)
    (hkw : vendorKw (lowerStr prompt) = true) (hne : rows ≠ []) :
    (50 < topVendorPct (dedupByContractId rows) →
       (comprehensiveLines rows prompt now).any startsHighWarn = true ∧
       (comprehensiveLines rows prompt now).any startsModWarn = false) ∧
    (30 < topVendorPct (dedupByContractId rows) ∧
       topVendorPct (dedupByContractId rows) ≤ 50 →
       (comprehensiveLines rows prompt now).any startsModWarn = true ∧
       (comprehensiveLines rows prompt now).any startsHighWarn = false) ∧
    (topVendorPct (dedupByContractId rows) < 30 →
       (comprehensiveLines rows prompt now).any startsHighWarn = false ∧
       (comprehensiveLines rows prompt now).any startsModWarn = false) := by
  have hsplit : comprehensiveLines rows prompt now =
      overviewLines (dedupByContractId rows) ++ vendorLines (dedupByContractId rows) ++
      (if expiryKw (lowerStr prompt) then expiryLines (dedupByContractId rows) now else []) ++
      (if paymentKw (lowerStr prompt) then paymentLines (dedupByContractId rows) else []) ++
      (if riskKw (lowerStr prompt) then riskLines (dedupByContractId rows) else []) ++
      namedVendorLines (dedupByContractId rows) (lowerStr prompt) ++
      typeLines (dedupByContractId rows) ++ finLines (dedupByContractId rows) := by
    unfold comprehensiveLines compCore
    rw [if_pos hkw]
  obtain ⟨hov1, hov2⟩ := any_noWarn _ (noWarn_overview (dedupByContractId rows))
  obtain ⟨hna1, hna2⟩ :=
    any_noWarn _ (noWarn_named (dedupByContractId rows) (lowerStr prompt))
  obtain ⟨hty1, hty2⟩ := any_noWarn _ (noWarn_types (dedupByContractId rows))
  obtain ⟨hfi1, hfi2⟩ := any_noWarn _ (noWarn_fin (dedupByContractId rows))
  have hexp : ∀ p : String → Bool,
      (∀ l ∈ expiryLines (dedupByContractId rows) now, p l = false) →
      (if expiryKw (lowerStr prompt) then expiryLines (dedupByContractId rows) now
       else []).any p = false := by
    intro p hp
    split
    · rw [List.any_eq_false]
      intro x hx
      simp [hp x hx]
    · rfl
  have hpay : ∀ p : String → Bool,
      (∀ l ∈ paymentLines (dedupByContractId rows), p l = false) →
      (if paymentKw (lowerStr prompt) then paymentLines (dedupByContractId rows)
       else []).any p = false := by
    intro p hp
    split
    · rw [List.any_eq_false]
      intro x hx
      simp [hp x hx]
    · rfl
  have hrsk : ∀ p : String → Bool,
      (∀ l ∈ riskLines (dedupByContractId rows), p l = false) →
      (if riskKw (lowerStr prompt) then riskLines (dedupByContractId rows)
       else []).any p = false := by
    intro p hp
    split
    · rw [List.any_eq_false]
      intro x hx
      simp [hp x hx]
    · rfl
  have he1 := hexp startsHighWarn (fun l hl => (noWarn_expiry _ now l hl).1)
  have he2 := hexp startsModWarn (fun l hl => (noWarn_expiry _ now l hl).2)
  have hp1 := hpay startsHighWarn (fun l hl => (noWarn_payment _ l hl).1)
  have hp2 := hpay startsModWarn (fun l hl => (noWarn_payment _ l hl).2)
  have hr1 := hrsk startsHighWarn (fun l hl => (noWarn_risk _ l hl).1)
  have hr2 := hrsk startsModWarn (fun l hl => (noWarn_risk _ l hl).2)
  have hhigh : (comprehensiveLines rows prompt now).any startsHighWarn =
      decide (50 < topVendorPct (dedupByContractId rows)) := by
    rw [hsplit]
    simp only [List.any_append, hov1, he1, hp1, hr1, hna1, hty1, hfi1,
      vendorLines_any_high, Bool.false_or, Bool.or_false]
  have hmod : (comprehensiveLines rows prompt now).any startsModWarn =
      decide (30 < topVendorPct (dedupByContractId rows) ∧
        topVendorPct (dedupByContractId rows) ≤ 50) := by
    rw [hsplit]
    simp only [List.any_append, hov2, he2, hp2, hr2, hna2, hty2, hfi2,
      vendorLines_any_mod, Bool.false_or, Bool.or_false]
  rw [hhigh, hmod]
  refine ⟨fun h => ⟨by simp [h], ?_⟩, fun h => ⟨by simp [h], ?_⟩, fun h => ⟨?_, ?_⟩⟩
  · have hnot : ¬(30 < topVendorPct (dedupByContractId rows) ∧
        topVendorPct (dedupByContractId rows) ≤ 50) :=
      fun hc => absurd h (not_lt.mpr hc.2)
    simp [hnot]
  · have hnot : ¬(50 < topVendorPct (dedupByContractId rows)) := not_lt.mpr h.2
    simp [hnot]
  · have hnot : ¬(50 < topVendorPct (dedupByContractId rows)) :=
      not_lt.mpr (le_of_lt (lt_trans h (by norm_num)))
    simp [hnot]
  · have hnot : ¬(30 < topVendorPct (dedupByContractId rows) ∧
        topVendorPct (dedupByContractId rows) ≤ 50) :=
      fun hc => absurd hc.1 (not_lt.mpr (le_of_lt h))
    simp [hnot]

/-- Witness for C5 at a concrete two-vendor table with a 71.4 percent
top share and a vendor-keyword question. -/
theorem C5_concentration_witness :
    (comprehensiveLines [row1, row2] "top vendors" 0).any startsHighWarn = true ∧
    (comprehensiveLines [row1, row2] "top vendors" 0).any startsModWarn = false :=
  (C5_concentration [row1, row2] "top vendors" 0 rfl (by decide)).1 (by
    unfold topVendorPct
    rw [show ((vendorAgg (dedupByContractId [row1, row2])).headD ⟨"", 0, 0, 0⟩).tv
          = 5000000 from rfl,
        show sumTV (dedupByContractId [row1, row2]) = 7000000 from rfl]
    norm_num)

/-- Sanity checks of the executable embedding on concrete values. -/
theorem embedding_sanity :
    fmtComma 5000000 = "5,000,000" ∧ fmtComma (-1234) = "-1,234" ∧
    lowerStr "ToTal VALUE" = "total value" ∧ stripStr "  hi \n" = "hi" ∧
    strContainsSub "what is the total value" "total" = true ∧
    strContainsSub "hello" "world" = false ∧
    daysFromCivil ⟨1970, 1, 1⟩ = 0 ∧ daysFromCivil ⟨2024, 3, 1⟩ = 19783 ∧
    uniqueStrs ["b", "a", "b", "c"] = ["b", "a", "c"] :=
  ⟨rfl, rfl, rfl, rfl, rfl, rfl, rfl, rfl, rfl⟩
